import Mathlib

/-
Verification of the log-record correlation core of `ddtrace/contrib/logging/patch.py`:
the record-augmentation hook `_w_makeRecord`, its helper `_inject_or_default`, and the
`patch`/`unpatch` lifecycle.  Python values are embedded shallowly: optional strings as
`Option String` (with `None` and `""` both falsy), span/trace identifiers as `Nat`
(0 meaning unset, matching Python integer truthiness), record attributes as an
association list written through `setattr` and read through `getattr`.
-/

namespace DdLogging

/-! ## Constants (from src/ddtrace/contrib/logging/patch.py) -/

def RECORD_ATTR_ENV : String := "dd.env"

def RECORD_ATTR_VERSION : String := "dd.version"

def RECORD_ATTR_TRACE_ID : String := "dd.trace_id"

def RECORD_ATTR_SPAN_ID : String := "dd.span_id"

def RECORD_ATTR_VALUE_ZERO : Nat := 0

def RECORD_ATTR_VALUE_EMPTY : String := ""

/-- Modelled from the spec: tag-key constants live in `ddtrace/constants.py`, which is
not under src/; the spec fixes a primary version tag, a secondary service-version tag
and an environment tag as stable keys of the span's tag mapping. -/
def VERSION_KEY : String := "version"

/-- Modelled from the spec: the secondary / service-version tag key (see `VERSION_KEY`). -/
def SERVICE_VERSION_KEY : String := "service.version"

/-- Modelled from the spec: the environment tag key (see `VERSION_KEY`). -/
def ENV_KEY : String := "env"

/-! ## Data model -/

/-- A value stored on a log record by this core: the env/version fields are strings,
the identifier fields are non-negative integers. -/
inductive AttrValue where
  | str (s : String)
  | int (n : Nat)
deriving DecidableEq, Repr

/-- A log record, reduced to its attribute surface: the core only ever reads and
writes attributes of the record it is handed.  Attributes are an association list;
`setattr` prepends and `getattr` returns the most recent write, giving Python's
overwrite semantics observationally. -/
structure LogRecord where
  attrs : List (String × AttrValue)
deriving DecidableEq, Repr

/-- Python `getattr` on the attribute surface: first (most recent) binding wins. -/
def lookupAssoc : List (String × AttrValue) → String → Option AttrValue
  | [], _ => none
  | (k, v) :: rest, key => if k = key then some v else lookupAssoc rest key

def getattr (r : LogRecord) (k : String) : Option AttrValue :=
  lookupAssoc r.attrs k

/-- Python `setattr`: bind `k` to `v`, shadowing any earlier binding. -/
def setattr (r : LogRecord) (k : String) (v : AttrValue) : LogRecord :=
  ⟨(k, v) :: r.attrs⟩

/-- Lookup in a span's tag mapping (string keys, unique; first binding wins). -/
def lookupTag : List (String × String) → String → Option String
  | [], _ => none
  | (k, v) :: rest, key => if k = key then some v else lookupTag rest key

/-- A span as consumed read-only by this core: trace/span identifiers
(non-negative, 0 = unset) and the tag mapping `meta`. -/
structure Span where
  trace_id : Nat
  span_id : Nat
  meta : List (String × String)
deriving DecidableEq, Repr

/-- Source `Span.get_tag(key)`: `self.meta.get(key)`. -/
def Span.get_tag (s : Span) (key : String) : Option String :=
  lookupTag s.meta key

/-- Modelled from the spec: `Span.set_tag` lives in `ddtrace/span.py`, which is not
under src/.  The spec makes the secondary service-version tag a recognized, lower-
precedence alias of the primary version tag, and the repository's tests tag spans
through `set_tag`; accordingly, tagging the service-version key also records the
value under the primary version key. -/
def Span.set_tag (s : Span) (key value : String) : Span :=
  if key = SERVICE_VERSION_KEY then
    { s with meta := (SERVICE_VERSION_KEY, value) :: (VERSION_KEY, value) :: s.meta }
  else
    { s with meta := (key, value) :: s.meta }

/-- The global configuration snapshot consumed by the hook: optional `env` and
`version` strings (`none` = unset; `some ""` = explicitly empty). -/
structure GlobalConfig where
  env : Option String
  version : Option String
deriving DecidableEq, Repr

/-- Python truthiness of an optional string: `None` and `""` are falsy. -/
def falsyStr : Option String → Bool
  | none => true
  | some s => s = ""

/-! ## The hook (from src/ddtrace/contrib/logging/patch.py) -/

/-- Source `_inject_or_default(record, key, value, default)`: if the value is falsy replace
it by the default, then `setattr` it onto the record. -/
def _inject_or_default (record : LogRecord) (key : String) (value : Option String)
    (default : String) : LogRecord :=
  let value := if falsyStr value then default else value.getD default
  setattr record key (.str value)

/-- The local `version` computed by `_w_makeRecord`: start from `config.version`,
override with the span's tag when a span is active and `VERSION_KEY in span.meta`. -/
def resolvedVersion (span : Option Span) (config : GlobalConfig) : Option String :=
  match span with
  | some s => if (lookupTag s.meta VERSION_KEY).isSome then s.get_tag VERSION_KEY
              else config.version
  | none => config.version

/-- The local `env` computed by `_w_makeRecord`: start from `config.env`, override
with the span's tag when a span is active and `ENV_KEY in span.meta`. -/
def resolvedEnv (span : Option Span) (config : GlobalConfig) : Option String :=
  match span with
  | some s => if (lookupTag s.meta ENV_KEY).isSome then s.get_tag ENV_KEY
              else config.env
  | none => config.env

/-- The augmentation body of `_w_makeRecord`, applied to the record the wrapped
original construction just produced: inject version and env (with falsy-to-default
normalization), then the correlation identifiers (all-or-nothing). -/
def _w_makeRecord (span : Option Span) (config : GlobalConfig) (record : LogRecord) :
    LogRecord :=
  let record := _inject_or_default record RECORD_ATTR_VERSION
    (resolvedVersion span config) RECORD_ATTR_VALUE_EMPTY
  let record := _inject_or_default record RECORD_ATTR_ENV
    (resolvedEnv span config) RECORD_ATTR_VALUE_EMPTY
  match span with
  | some s =>
    if s.trace_id ≠ 0 ∧ s.span_id ≠ 0 then
      setattr (setattr record RECORD_ATTR_TRACE_ID (.int s.trace_id))
        RECORD_ATTR_SPAN_ID (.int s.span_id)
    else
      setattr (setattr record RECORD_ATTR_TRACE_ID (.int RECORD_ATTR_VALUE_ZERO))
        RECORD_ATTR_SPAN_ID (.int RECORD_ATTR_VALUE_ZERO)
  | none =>
    setattr (setattr record RECORD_ATTR_TRACE_ID (.int RECORD_ATTR_VALUE_ZERO))
      RECORD_ATTR_SPAN_ID (.int RECORD_ATTR_VALUE_ZERO)

/-- The current-span lookup as the hook observes it: the tracer collaborator either
answers with an optional span or raises. -/
inductive LookupResult where
  | ok (span : Option Span)
  | err (e : String)
deriving DecidableEq, Repr

/-- The full hook body including the `tracer.current_span()` call: the source wraps
that call in no try/except, so a raising lookup propagates out of `makeRecord`;
otherwise the augmented record is returned. -/
def _w_makeRecord_total (lookup : LookupResult) (config : GlobalConfig)
    (record : LogRecord) : Except String LogRecord :=
  match lookup with
  | .err e => .error e
  | .ok span => .ok (_w_makeRecord span config record)

/-- The wrapper as installed around `Logger.makeRecord`: run the wrapped original
construction first (an arbitrary stateful constructor `func` over an arbitrary
state type), augment the record it produced, and return it. -/
def wrappedMakeRecord {σ : Type} (func : σ → LogRecord × σ) (span : Option Span)
    (config : GlobalConfig) (st : σ) : LogRecord × σ :=
  let out := func st
  (_w_makeRecord span config out.1, out.2)

/-! ## The lifecycle (patch / unpatch) -/

/-- The process-wide state the controller touches: the `logging._datadog_patch`
flag and the number of wrappers currently stacked on `Logger.makeRecord`. -/
structure LoggingModule where
  _datadog_patch : Bool
  wrappers : Nat
deriving DecidableEq, Repr

/-- The state before any call: flag unset, no wrapper installed. -/
def initialModule : LoggingModule :=
  { _datadog_patch := false, wrappers := 0 }

/-- Source `patch()`: no-op when the flag is set; otherwise set the flag and install one
more wrapper around `Logger.makeRecord`. -/
def patch (m : LoggingModule) : LoggingModule :=
  if m._datadog_patch then m
  else { _datadog_patch := true, wrappers := m.wrappers + 1 }

/-- Source `unpatch()`: when the flag is set, clear it and remove one wrapper; no-op
otherwise. -/
def unpatch (m : LoggingModule) : LoggingModule :=
  if m._datadog_patch then { _datadog_patch := false, wrappers := m.wrappers - 1 }
  else m

/-- States reachable by `patch`/`unpatch` calls from the unpatched initial state. -/
inductive Reachable : LoggingModule → Prop where
  | init : Reachable initialModule
  | step_patch {m : LoggingModule} : Reachable m → Reachable (patch m)
  | step_unpatch {m : LoggingModule} : Reachable m → Reachable (unpatch m)

/-- Record construction as dispatched by the logging module: each stacked wrapper
applies the augmentation once around the original construction; with no wrapper
installed the original record is returned untouched. -/
def makeRecordDispatch (m : LoggingModule) (span : Option Span)
    (config : GlobalConfig) (base : LogRecord) : LogRecord :=
  Nat.rec base (fun _ r => _w_makeRecord span config r) m.wrappers

/-! ## Spec-side definitions (for refinement-style claims) -/

/-- The spec's three-step fallback chain for one field: the span's tag value when
the key is present in the tag mapping, else the configuration value, else the
empty string. -/
def specChain (tagValue : Option String) (configValue : Option String) : String :=
  match tagValue with
  | some v => v
  | none => configValue.getD ""

/-- The spec's all-or-nothing identifier policy: the span's pair exactly when a
span exists and both identifiers are non-zero, else (0, 0). -/
def specIds : Option Span → Nat × Nat
  | some s => if s.trace_id ≠ 0 ∧ s.span_id ≠ 0 then (s.trace_id, s.span_id) else (0, 0)
  | none => (0, 0)

/-! ## Helper lemmas -/

theorem getattr_setattr (r : LogRecord) (k' : String) (v : AttrValue) (k : String) :
    getattr (setattr r k' v) k = if k' = k then some v else getattr r k := rfl

theorem getattr_inject (r : LogRecord) (key : String) (value : Option String)
    (d : String) (k : String) :
    getattr (_inject_or_default r key value d) k
      = if key = k then some (.str (if falsyStr value then d else value.getD d))
        else getattr r k := rfl

theorem falsy_norm (value : Option String) :
    (if falsyStr value then RECORD_ATTR_VALUE_EMPTY else value.getD RECORD_ATTR_VALUE_EMPTY)
      = value.getD "" := by
  cases value with
  | none => rfl
  | some s =>
      by_cases h : s = "" <;> simp [falsyStr, h, RECORD_ATTR_VALUE_EMPTY]

/-- Full characterization of the attribute surface of the augmented record: the four
correlation fields hold the resolved values (env/version normalized, identifiers per
the all-or-nothing policy), and every other attribute is the base record's. -/
theorem getattr_w_makeRecord (span : Option Span) (cfg : GlobalConfig) (r : LogRecord)
    (k : String) :
    getattr (_w_makeRecord span cfg r) k =
      if RECORD_ATTR_SPAN_ID = k then some (.int (specIds span).2)
      else if RECORD_ATTR_TRACE_ID = k then some (.int (specIds span).1)
      else if RECORD_ATTR_ENV = k then some (.str ((resolvedEnv span cfg).getD ""))
      else if RECORD_ATTR_VERSION = k then some (.str ((resolvedVersion span cfg).getD ""))
      else getattr r k := by
  cases span with
  | none =>
      show getattr (setattr (setattr (_inject_or_default (_inject_or_default r
        RECORD_ATTR_VERSION _ _) RECORD_ATTR_ENV _ _) RECORD_ATTR_TRACE_ID _)
        RECORD_ATTR_SPAN_ID _) k = _
      rw [getattr_setattr, getattr_setattr, getattr_inject, getattr_inject,
        falsy_norm, falsy_norm]
      rfl
  | some s =>
      by_cases hid : s.trace_id ≠ 0 ∧ s.span_id ≠ 0
      · show getattr (if s.trace_id ≠ 0 ∧ s.span_id ≠ 0 then _ else _) k = _
        rw [if_pos hid]
        rw [getattr_setattr, getattr_setattr, getattr_inject, getattr_inject,
          falsy_norm, falsy_norm]
        simp only [specIds, if_pos hid]
      · show getattr (if s.trace_id ≠ 0 ∧ s.span_id ≠ 0 then _ else _) k = _
        rw [if_neg hid]
        rw [getattr_setattr, getattr_setattr, getattr_inject, getattr_inject,
          falsy_norm, falsy_norm]
        simp only [specIds, if_neg hid, RECORD_ATTR_VALUE_ZERO]

theorem w_getattr_env (span : Option Span) (cfg : GlobalConfig) (r : LogRecord) :
    getattr (_w_makeRecord span cfg r) RECORD_ATTR_ENV
      = some (.str ((resolvedEnv span cfg).getD "")) := by
  rw [getattr_w_makeRecord, if_neg (by decide), if_neg (by decide), if_pos rfl]

theorem w_getattr_version (span : Option Span) (cfg : GlobalConfig) (r : LogRecord) :
    getattr (_w_makeRecord span cfg r) RECORD_ATTR_VERSION
      = some (.str ((resolvedVersion span cfg).getD "")) := by
  rw [getattr_w_makeRecord, if_neg (by decide), if_neg (by decide), if_neg (by decide),
    if_pos rfl]

theorem w_getattr_trace_id (span : Option Span) (cfg : GlobalConfig) (r : LogRecord) :
    getattr (_w_makeRecord span cfg r) RECORD_ATTR_TRACE_ID
      = some (.int (specIds span).1) := by
  rw [getattr_w_makeRecord, if_neg (by decide), if_pos rfl]

theorem w_getattr_span_id (span : Option Span) (cfg : GlobalConfig) (r : LogRecord) :
    getattr (_w_makeRecord span cfg r) RECORD_ATTR_SPAN_ID
      = some (.int (specIds span).2) := by
  rw [getattr_w_makeRecord, if_pos rfl]

theorem w_getattr_other (span : Option Span) (cfg : GlobalConfig) (r : LogRecord)
    (k : String) (h1 : k ≠ RECORD_ATTR_ENV) (h2 : k ≠ RECORD_ATTR_VERSION)
    (h3 : k ≠ RECORD_ATTR_TRACE_ID) (h4 : k ≠ RECORD_ATTR_SPAN_ID) :
    getattr (_w_makeRecord span cfg r) k = getattr r k := by
  rw [getattr_w_makeRecord, if_neg (fun h => h4 h.symm), if_neg (fun h => h3 h.symm),
    if_neg (fun h => h1 h.symm), if_neg (fun h => h2 h.symm)]

theorem resolved_env_spec (span : Option Span) (cfg : GlobalConfig) :
    (resolvedEnv span cfg).getD ""
      = specChain (span.bind fun s => lookupTag s.meta ENV_KEY) cfg.env := by
  cases span with
  | none => rfl
  | some s =>
      cases h : lookupTag s.meta ENV_KEY <;>
        simp [resolvedEnv, specChain, Span.get_tag, h]

theorem resolved_version_spec (span : Option Span) (cfg : GlobalConfig) :
    (resolvedVersion span cfg).getD ""
      = specChain (span.bind fun s => lookupTag s.meta VERSION_KEY) cfg.version := by
  cases span with
  | none => rfl
  | some s =>
      cases h : lookupTag s.meta VERSION_KEY <;>
        simp [resolvedVersion, specChain, Span.get_tag, h]

/-! ## Claims -/

/-- C1: every record created while active carries all four correlation fields,
whether or not a span is current; with no current span, env/version are the
configuration values (empty string when absent) and both identifiers are 0. -/
theorem c1_always_sets_four_fields (span : Option Span) (cfg : GlobalConfig)
    (r : LogRecord) :
    ((getattr (_w_makeRecord span cfg r) RECORD_ATTR_ENV).isSome = true
      ∧ (getattr (_w_makeRecord span cfg r) RECORD_ATTR_VERSION).isSome = true
      ∧ (getattr (_w_makeRecord span cfg r) RECORD_ATTR_TRACE_ID).isSome = true
      ∧ (getattr (_w_makeRecord span cfg r) RECORD_ATTR_SPAN_ID).isSome = true)
    ∧ (span = none →
        getattr (_w_makeRecord span cfg r) RECORD_ATTR_ENV
            = some (.str (cfg.env.getD ""))
        ∧ getattr (_w_makeRecord span cfg r) RECORD_ATTR_VERSION
            = some (.str (cfg.version.getD ""))
        ∧ getattr (_w_makeRecord span cfg r) RECORD_ATTR_TRACE_ID = some (.int 0)
        ∧ getattr (_w_makeRecord span cfg r) RECORD_ATTR_SPAN_ID = some (.int 0)) := by
  refine ⟨⟨?_, ?_, ?_, ?_⟩, ?_⟩
  · rw [w_getattr_env]; rfl
  · rw [w_getattr_version]; rfl
  · rw [w_getattr_trace_id]; rfl
  · rw [w_getattr_span_id]; rfl
  · rintro rfl
    exact ⟨w_getattr_env none cfg r, w_getattr_version none cfg r,
      w_getattr_trace_id none cfg r, w_getattr_span_id none cfg r⟩

theorem c1_witness :
    getattr (_w_makeRecord none ⟨some "prod", some "23.45.6"⟩ ⟨[]⟩) RECORD_ATTR_ENV
        = some (.str "prod")
    ∧ getattr (_w_makeRecord none ⟨some "prod", some "23.45.6"⟩ ⟨[]⟩) RECORD_ATTR_VERSION
        = some (.str "23.45.6")
    ∧ getattr (_w_makeRecord none ⟨some "prod", some "23.45.6"⟩ ⟨[]⟩) RECORD_ATTR_TRACE_ID
        = some (.int 0)
    ∧ getattr (_w_makeRecord none ⟨some "prod", some "23.45.6"⟩ ⟨[]⟩) RECORD_ATTR_SPAN_ID
        = some (.int 0) :=
  (c1_always_sets_four_fields none ⟨some "prod", some "23.45.6"⟩ ⟨[]⟩).2 rfl

/-- C2: for every record created while active, env and version are each resolved by
the same three-step chain, independently: the span's tag value when the key is in
the tag mapping (overriding configuration), else the configuration value, else the
empty string. -/
theorem c2_three_step_fallback_chain (span : Option Span) (cfg : GlobalConfig)
    (r : LogRecord) :
    getattr (_w_makeRecord span cfg r) RECORD_ATTR_ENV
      = some (.str (specChain (span.bind fun s => lookupTag s.meta ENV_KEY) cfg.env))
    ∧ getattr (_w_makeRecord span cfg r) RECORD_ATTR_VERSION
      = some (.str (specChain (span.bind fun s => lookupTag s.meta VERSION_KEY)
          cfg.version)) := by
  constructor
  · rw [w_getattr_env, resolved_env_spec]
  · rw [w_getattr_version, resolved_version_spec]

/-- C3: version resolution recognizes the primary version tag and the secondary
service-version tag, the primary winning whenever it is present in the tag mapping;
a span tagged only with the secondary tag "1.2.3" (no global version) yields
version "1.2.3". -/
theorem c3_version_tag_keys (s : Span) (cfg : GlobalConfig) (r : LogRecord)
    (v : String) (hprimary : lookupTag s.meta VERSION_KEY = some v) :
    getattr (_w_makeRecord (some s) cfg r) RECORD_ATTR_VERSION = some (.str v)
    ∧ getattr (_w_makeRecord
        (some (Span.set_tag ⟨111, 222, []⟩ SERVICE_VERSION_KEY "1.2.3"))
        ⟨cfg.env, none⟩ r) RECORD_ATTR_VERSION = some (.str "1.2.3") := by
  constructor
  · rw [w_getattr_version]
    simp [resolvedVersion, Span.get_tag, hprimary]
  · rw [w_getattr_version]
    rfl

theorem c3_witness :
    getattr (_w_makeRecord
        (some ⟨1, 2, [(VERSION_KEY, "9.9"), (SERVICE_VERSION_KEY, "8.8")]⟩)
        ⟨none, some "7.7"⟩ ⟨[]⟩) RECORD_ATTR_VERSION = some (.str "9.9")
    ∧ getattr (_w_makeRecord
        (some (Span.set_tag ⟨111, 222, []⟩ SERVICE_VERSION_KEY "1.2.3"))
        ⟨none, none⟩ ⟨[]⟩) RECORD_ATTR_VERSION = some (.str "1.2.3") :=
  c3_version_tag_keys ⟨1, 2, [(VERSION_KEY, "9.9"), (SERVICE_VERSION_KEY, "8.8")]⟩
    ⟨none, some "7.7"⟩ ⟨[]⟩ "9.9" rfl

/-- C4: the record's identifiers equal the span's exactly when a span exists with
both identifiers non-zero, else both are 0 — never a mixed pair. -/
theorem c4_identifier_all_or_nothing (span : Option Span) (cfg : GlobalConfig)
    (r : LogRecord) :
    getattr (_w_makeRecord span cfg r) RECORD_ATTR_TRACE_ID
        = some (.int (specIds span).1)
    ∧ getattr (_w_makeRecord span cfg r) RECORD_ATTR_SPAN_ID
        = some (.int (specIds span).2)
    ∧ ((specIds span).1 ≠ 0 ↔ (specIds span).2 ≠ 0) := by
  refine ⟨w_getattr_trace_id span cfg r, w_getattr_span_id span cfg r, ?_⟩
  cases span with
  | none => simp [specIds]
  | some s =>
      by_cases h : s.trace_id ≠ 0 ∧ s.span_id ≠ 0
      · simp [specIds, h, h.1, h.2]
      · simp [specIds, h]

/-- C5: whenever the resolved env/version value is falsy (absent or explicitly
empty, from any branch of the chain), the field written is exactly the empty
string. -/
theorem c5_falsy_normalization (r : LogRecord) (key : String) (value : Option String)
    (h : value = none ∨ value = some "") :
    getattr (_inject_or_default r key value RECORD_ATTR_VALUE_EMPTY) key
        = some (.str "")
    ∧ (∀ (span : Option Span) (cfg : GlobalConfig),
        resolvedEnv span cfg = none ∨ resolvedEnv span cfg = some "" →
          getattr (_w_makeRecord span cfg r) RECORD_ATTR_ENV = some (.str ""))
    ∧ (∀ (span : Option Span) (cfg : GlobalConfig),
        resolvedVersion span cfg = none ∨ resolvedVersion span cfg = some "" →
          getattr (_w_makeRecord span cfg r) RECORD_ATTR_VERSION = some (.str "")) := by
  refine ⟨?_, ?_, ?_⟩
  · rw [getattr_inject, if_pos rfl, falsy_norm]
    rcases h with rfl | rfl <;> rfl
  · intro span cfg hres
    rw [w_getattr_env]
    rcases hres with h' | h' <;> rw [h'] <;> rfl
  · intro span cfg hres
    rw [w_getattr_version]
    rcases hres with h' | h' <;> rw [h'] <;> rfl

theorem c5_witness :
    getattr (_inject_or_default ⟨[]⟩ RECORD_ATTR_ENV (some "") RECORD_ATTR_VALUE_EMPTY)
        RECORD_ATTR_ENV = some (.str "") :=
  (c5_falsy_normalization ⟨[]⟩ RECORD_ATTR_ENV (some "") (Or.inr rfl)).1

/-- C10: precedence is decided by key presence, not value truthiness: a span tag
explicitly set to the empty string wins over a non-empty configuration value and
yields the empty string on the record. -/
theorem c10_presence_beats_truthiness (s : Span) (cfg : GlobalConfig) (r : LogRecord) :
    (lookupTag s.meta ENV_KEY = some "" →
       getattr (_w_makeRecord (some s) cfg r) RECORD_ATTR_ENV = some (.str ""))
    ∧ (lookupTag s.meta VERSION_KEY = some "" →
       getattr (_w_makeRecord (some s) cfg r) RECORD_ATTR_VERSION = some (.str "")) := by
  constructor
  · intro h
    rw [w_getattr_env]
    simp [resolvedEnv, Span.get_tag, h]
  · intro h
    rw [w_getattr_version]
    simp [resolvedVersion, Span.get_tag, h]

theorem c10_witness :
    getattr (_w_makeRecord (some ⟨1, 2, [(ENV_KEY, ""), (VERSION_KEY, "")]⟩)
        ⟨some "prod", some "1.0"⟩ ⟨[]⟩) RECORD_ATTR_ENV = some (.str "")
    ∧ getattr (_w_makeRecord (some ⟨1, 2, [(ENV_KEY, ""), (VERSION_KEY, "")]⟩)
        ⟨some "prod", some "1.0"⟩ ⟨[]⟩) RECORD_ATTR_VERSION = some (.str "") :=
  ⟨(c10_presence_beats_truthiness ⟨1, 2, [(ENV_KEY, ""), (VERSION_KEY, "")]⟩
      ⟨some "prod", some "1.0"⟩ ⟨[]⟩).1 rfl,
   (c10_presence_beats_truthiness ⟨1, 2, [(ENV_KEY, ""), (VERSION_KEY, "")]⟩
      ⟨some "prod", some "1.0"⟩ ⟨[]⟩).2 rfl⟩

theorem reachable_wrapper_count {m : LoggingModule} (hm : Reachable m) :
    m.wrappers = if m._datadog_patch then 1 else 0 := by
  induction hm with
  | init => rfl
  | step_patch hm ih =>
      rename_i m'
      by_cases h : m'._datadog_patch = true <;> simp [patch, h, ih]
  | step_unpatch hm ih =>
      rename_i m'
      by_cases h : m'._datadog_patch = true <;> simp [unpatch, h, ih]

/-- C6 counterexample: the hook installs no handler around the current-span lookup,
so a raising lookup propagates and record creation fails instead of completing with
default field values. -/
theorem c6_counterexample :
    _w_makeRecord_total (.err "tracer failure") ⟨none, none⟩ ⟨[]⟩
        = Except.error "tracer failure"
    ∧ _w_makeRecord_total (.err "tracer failure") ⟨none, none⟩ ⟨[]⟩
        ≠ Except.ok (_w_makeRecord none ⟨none, none⟩ ⟨[]⟩) := by
  refine ⟨rfl, fun h => ?_⟩
  rw [_w_makeRecord_total] at h
  exact Except.noConfusion h

/-- C6 amended: when the lookup answers with no span the hook completes with the
default field values, but an exception raised by the lookup is not caught and
propagates out of record creation. -/
theorem c6_amended_lookup_failure (lookup : LookupResult) (cfg : GlobalConfig)
    (r : LogRecord) :
    (lookup = .ok none →
       _w_makeRecord_total lookup cfg r = .ok (_w_makeRecord none cfg r)
       ∧ getattr (_w_makeRecord none cfg r) RECORD_ATTR_ENV
           = some (.str (cfg.env.getD ""))
       ∧ getattr (_w_makeRecord none cfg r) RECORD_ATTR_VERSION
           = some (.str (cfg.version.getD ""))
       ∧ getattr (_w_makeRecord none cfg r) RECORD_ATTR_TRACE_ID = some (.int 0)
       ∧ getattr (_w_makeRecord none cfg r) RECORD_ATTR_SPAN_ID = some (.int 0))
    ∧ (∀ e, lookup = .err e → _w_makeRecord_total lookup cfg r = .error e) := by
  constructor
  · rintro rfl
    exact ⟨rfl, w_getattr_env none cfg r, w_getattr_version none cfg r,
      w_getattr_trace_id none cfg r, w_getattr_span_id none cfg r⟩
  · rintro e rfl
    rfl

theorem c6_amended_witness :
    _w_makeRecord_total (.ok none) ⟨some "prod", none⟩ ⟨[]⟩
        = .ok (_w_makeRecord none ⟨some "prod", none⟩ ⟨[]⟩)
    ∧ getattr (_w_makeRecord none ⟨some "prod", none⟩ ⟨[]⟩) RECORD_ATTR_ENV
        = some (.str "prod")
    ∧ getattr (_w_makeRecord none ⟨some "prod", none⟩ ⟨[]⟩) RECORD_ATTR_VERSION
        = some (.str "")
    ∧ getattr (_w_makeRecord none ⟨some "prod", none⟩ ⟨[]⟩) RECORD_ATTR_TRACE_ID
        = some (.int 0)
    ∧ getattr (_w_makeRecord none ⟨some "prod", none⟩ ⟨[]⟩) RECORD_ATTR_SPAN_ID
        = some (.int 0) :=
  (c6_amended_lookup_failure (.ok none) ⟨some "prod", none⟩ ⟨[]⟩).1 rfl

/-- C7: `patch` is idempotent (the second call is a no-op guarded by the flag),
`unpatch` while inactive is a no-op, and an enable/disable/enable cycle from any
reachable inactive state restores the exact one-wrapper state, with identical
dispatch behavior after one or two `patch` calls. -/
theorem c7_lifecycle_idempotent (m : LoggingModule) (hm : Reachable m) :
    patch (patch m) = patch m
    ∧ (m._datadog_patch = false → unpatch m = m)
    ∧ (m._datadog_patch = false →
        patch (unpatch (patch m)) = patch m ∧ (patch m).wrappers = 1)
    ∧ (∀ (span : Option Span) (cfg : GlobalConfig) (base : LogRecord),
        makeRecordDispatch (patch (patch m)) span cfg base
          = makeRecordDispatch (patch m) span cfg base) := by
  have hpp : patch (patch m) = patch m := by
    by_cases h : m._datadog_patch = true <;> simp [patch, h]
  refine ⟨hpp, ?_, ?_, ?_⟩
  · intro h
    unfold unpatch
    rw [h]
    simp only [Bool.false_eq_true, if_false]
  · intro h
    have hw : m.wrappers = 0 := by
      rw [reachable_wrapper_count hm, h]
      simp only [Bool.false_eq_true, if_false]
    have hp : patch m = { _datadog_patch := true, wrappers := 1 } := by
      unfold patch
      rw [h]
      simp only [Bool.false_eq_true, if_false, hw]
    constructor
    · rw [hp]
      rfl
    · rw [hp]
  · intro span cfg base
    rw [hpp]

theorem c7_witness :
    patch (patch initialModule) = patch initialModule
    ∧ (initialModule._datadog_patch = false → unpatch initialModule = initialModule)
    ∧ (initialModule._datadog_patch = false →
        patch (unpatch (patch initialModule)) = patch initialModule
        ∧ (patch initialModule).wrappers = 1)
    ∧ (∀ (span : Option Span) (cfg : GlobalConfig) (base : LogRecord),
        makeRecordDispatch (patch (patch initialModule)) span cfg base
          = makeRecordDispatch (patch initialModule) span cfg base) :=
  c7_lifecycle_idempotent initialModule Reachable.init

/-- C8: while inactive — never patched, or reverted by `unpatch` — record
construction returns the base record untouched: the core sets none of the four
correlation fields. -/
theorem c8_inactive_sets_nothing (m : LoggingModule) (hm : Reachable m)
    (hinactive : m._datadog_patch = false) (span : Option Span) (cfg : GlobalConfig)
    (base : LogRecord) :
    makeRecordDispatch m span cfg base = base := by
  have hw : m.wrappers = 0 := by
    rw [reachable_wrapper_count hm, hinactive]
    simp only [Bool.false_eq_true, if_false]
  show Nat.rec base (fun _ r => _w_makeRecord span cfg r) m.wrappers = base
  rw [hw]
  rfl

theorem c8_witness :
    makeRecordDispatch (unpatch (patch initialModule)) none ⟨some "prod", none⟩
        ⟨[("msg", .str "hi")]⟩ = ⟨[("msg", .str "hi")]⟩ :=
  c8_inactive_sets_nothing (unpatch (patch initialModule))
    (Reachable.step_unpatch (Reachable.step_patch Reachable.init)) rfl
    none ⟨some "prod", none⟩ ⟨[("msg", .str "hi")]⟩

/-- C9: the installed hook runs the wrapped original construction first and exactly
once (the post-state is the state after a single call), returns that very record
augmented in place, and writes nothing beyond the four correlation fields: every
other attribute reads back unchanged, and the result is literally the original
record with the four `setattr` writes applied. -/
theorem c9_wrapper_frame (σ : Type) (func : σ → LogRecord × σ) (span : Option Span)
    (cfg : GlobalConfig) (st : σ) (k : String)
    (hk : k ≠ RECORD_ATTR_ENV ∧ k ≠ RECORD_ATTR_VERSION ∧ k ≠ RECORD_ATTR_TRACE_ID
      ∧ k ≠ RECORD_ATTR_SPAN_ID) :
    (wrappedMakeRecord func span cfg st).2 = (func st).2
    ∧ getattr (wrappedMakeRecord func span cfg st).1 k = getattr (func st).1 k
    ∧ ∃ v1 v2 v3 v4,
        (wrappedMakeRecord func span cfg st).1 =
          setattr (setattr (setattr (setattr (func st).1 RECORD_ATTR_VERSION (.str v1))
            RECORD_ATTR_ENV (.str v2)) RECORD_ATTR_TRACE_ID (.int v3))
            RECORD_ATTR_SPAN_ID (.int v4) := by
  refine ⟨rfl, ?_, ?_⟩
  · exact w_getattr_other span cfg (func st).1 k hk.1 hk.2.1 hk.2.2.1 hk.2.2.2
  · refine ⟨(if falsyStr (resolvedVersion span cfg) then RECORD_ATTR_VALUE_EMPTY
        else (resolvedVersion span cfg).getD RECORD_ATTR_VALUE_EMPTY),
      (if falsyStr (resolvedEnv span cfg) then RECORD_ATTR_VALUE_EMPTY
        else (resolvedEnv span cfg).getD RECORD_ATTR_VALUE_EMPTY),
      (specIds span).1, (specIds span).2, ?_⟩
    show _w_makeRecord span cfg (func st).1 = _
    unfold _w_makeRecord _inject_or_default
    cases span with
    | none => rfl
    | some s =>
        by_cases hid : s.trace_id ≠ 0 ∧ s.span_id ≠ 0
        · simp only [specIds, if_pos hid]
        · simp only [specIds, if_neg hid]
          rfl

theorem c9_witness :
    (wrappedMakeRecord (fun n : Nat => (⟨[("msg", .str "hi")]⟩, n + 1)) none
        ⟨none, none⟩ 0).2 = 1
    ∧ getattr (wrappedMakeRecord (fun n : Nat => (⟨[("msg", .str "hi")]⟩, n + 1)) none
        ⟨none, none⟩ 0).1 "msg" = some (.str "hi")
    ∧ ∃ v1 v2 v3 v4,
        (wrappedMakeRecord (fun n : Nat => (⟨[("msg", .str "hi")]⟩, n + 1)) none
            ⟨none, none⟩ 0).1 =
          setattr (setattr (setattr (setattr (⟨[("msg", .str "hi")]⟩ : LogRecord)
            RECORD_ATTR_VERSION (.str v1)) RECORD_ATTR_ENV (.str v2))
            RECORD_ATTR_TRACE_ID (.int v3)) RECORD_ATTR_SPAN_ID (.int v4) :=
  c9_wrapper_frame Nat (fun n : Nat => (⟨[("msg", .str "hi")]⟩, n + 1)) none
    ⟨none, none⟩ 0 "msg"
    ⟨by decide, by decide, by decide, by decide⟩

end DdLogging
